import Mathlib

/-!
Verification of the MyRDP streaming transport against its specification.

The Python sources are shallowly embedded:
* bytes are `Nat` values (0..255) and byte strings are `List Nat`;
* `packet.Packet` (an appending `io.BytesIO` builder) is a structure holding
  the accumulated byte list;
* `pread.SocketDataReader` is a structure `(data, pos)`: `data` is the whole
  byte stream delivered by the connection and `pos` the read cursor.  The
  model corresponds to a connection that has delivered the entire stream and
  then runs dry, so `_ensure_data n` succeeds iff `n` unread bytes remain and
  otherwise raises `NoDataAvailableError`;
* fallible operations return `Except Err _`, where the constructors of `Err`
  name the Python exception classes that can escape the corresponding code;
* the unbounded `while` loops of `read_packet` are given explicit fuel; the
  constructors `fuelOut`/`stuck` mark executions in which the Python loop
  spins forever (no claim exercises them).
-/

/-- Python exceptions that the reader / dispatcher code can raise or catch. -/
inductive Err where
  | noConnection
  | noData
  | valueError
  | runtimeError
  | fuelOut
  | stuck
deriving DecidableEq, Repr

/-! ## enums.py -/

/-- `PacketType(IntEnum)` from enums.py: exactly the four members defined there. -/
inductive PacketType where
  | MOUSE_CLICK
  | MOUSE_MOVE
  | VIDEO_DATA
  | KEYBOARD_EVENT
deriving DecidableEq, Repr

/-- The integer value of each `PacketType` member (enums.py lines 8-11). -/
def PacketType.val : PacketType → Nat
  | .MOUSE_CLICK => 0x01
  | .MOUSE_MOVE => 0x02
  | .VIDEO_DATA => 0x03
  | .KEYBOARD_EVENT => 0x04

/-- `PacketType(n)`: member lookup by value; `none` models the `ValueError`
Python raises for a value outside the enum. -/
def PacketType.ofNat? : Nat → Option PacketType
  | 0x01 => some .MOUSE_CLICK
  | 0x02 => some .MOUSE_MOVE
  | 0x03 => some .VIDEO_DATA
  | 0x04 => some .KEYBOARD_EVENT
  | _ => none

/-- Attribute access `PacketType.NAME` in Python: the member table of the class
as written in enums.py.  `none` models the `AttributeError` raised for a name
that is not a member. -/
def PacketType.memberValue : String → Option Nat
  | "MOUSE_CLICK" => some 0x01
  | "MOUSE_MOVE" => some 0x02
  | "VIDEO_DATA" => some 0x03
  | "KEYBOARD_EVENT" => some 0x04
  | _ => none

/-- `MouseButton(IntEnum)` from enums.py. -/
inductive MouseButton where
  | LEFT
  | MIDDLE
  | RIGHT
deriving DecidableEq, Repr

def MouseButton.val : MouseButton → Nat
  | .LEFT => 0x01
  | .MIDDLE => 0x02
  | .RIGHT => 0x03

/-- `MouseButton(n)`; `none` models the `ValueError` for a non-member value. -/
def MouseButton.ofNat? : Nat → Option MouseButton
  | 0x01 => some .LEFT
  | 0x02 => some .MIDDLE
  | 0x03 => some .RIGHT
  | _ => none

/-- `ButtonState(IntEnum)` from enums.py: `PRESS = 0x01`, `RELEASE = 0x00`. -/
inductive ButtonState where
  | PRESS
  | RELEASE
deriving DecidableEq, Repr

def ButtonState.val : ButtonState → Nat
  | .PRESS => 0x01
  | .RELEASE => 0x00

/-- `ButtonState(n)`; `none` models the `ValueError` for a non-member value. -/
def ButtonState.ofNat? : Nat → Option ButtonState
  | 0x01 => some .PRESS
  | 0x00 => some .RELEASE
  | _ => none

/-! ## packet.py -/

/-- Big-endian 4-byte encoding used by `struct.pack` with format `>I`.
For `v < 2 ^ 32` these are exactly the bytes Python produces (for larger
values `struct.pack` raises; theorems carry `v < 2 ^ 32` hypotheses). -/
def u32be (v : Nat) : List Nat :=
  [v / 2 ^ 24 % 256, v / 2 ^ 16 % 256, v / 2 ^ 8 % 256, v % 256]

/-- `packet.Packet`: an append-only byte buffer. -/
structure Packet where
  buffer : List Nat
deriving DecidableEq, Repr

/-- `Packet.add_int`: append the big-endian u32 encoding of `value`. -/
def Packet.add_int (p : Packet) (value : Nat) : Packet :=
  ⟨p.buffer ++ u32be value⟩

/-- `Packet.add_byte`: append one byte (`struct.pack` format `B`). -/
def Packet.add_byte (p : Packet) (value : Nat) : Packet :=
  ⟨p.buffer ++ [value % 256]⟩

/-- `Packet.add_bytes`: u32 length prefix followed by the raw bytes. -/
def Packet.add_bytes (p : Packet) (value : List Nat) : Packet :=
  ⟨(p.add_int value.length).buffer ++ value⟩

/-- `Packet.add_string`: the UTF-8 bytes of the string, framed like
`add_bytes` (strings are modelled by their UTF-8 byte lists). -/
def Packet.add_string (p : Packet) (value : List Nat) : Packet :=
  p.add_bytes value

/-- `Packet.get_bytes`: the accumulated buffer. -/
def Packet.get_bytes (p : Packet) : List Nat :=
  p.buffer

/-! ## constants.py (not part of src/) -/

/-- Modelled from the spec: `SYNC_SEQUENCE` lives in constants.py, a file that
is not under src/; the spec fixes it to the 8 bytes 00 01 00 01 00 01 00 01,
which matches the sequence hard-coded in
`SocketDataReader._seek_to_end_of_sync_packet` (pread.py). -/
def SYNC_SEQUENCE : List Nat := [0x00, 0x01, 0x00, 0x01, 0x00, 0x01, 0x00, 0x01]

/-! ## pfactory.py -/

/-- `MouseClickPacketFactory.create_packet` (pfactory.py lines 19-38). -/
def MouseClickPacketFactory.create_packet
    (x y : Nat) (button : MouseButton) (state : ButtonState) : Packet :=
  (((((Packet.mk []).add_byte PacketType.MOUSE_CLICK.val).add_byte
      button.val).add_byte state.val).add_int x).add_int y

/-- `MouseMovePacketFactory.create_packet` (pfactory.py lines 41-56). -/
def MouseMovePacketFactory.create_packet (x y : Nat) : Packet :=
  (((Packet.mk []).add_byte PacketType.MOUSE_MOVE.val).add_int x).add_int y

/-- `KeyboardEventPacketFactory.create_packet` (pfactory.py lines 59-74):
tag byte, length-prefixed UTF-8 key string, state byte. -/
def KeyboardEventPacketFactory.create_packet
    (key_code : List Nat) (state : ButtonState) : Packet :=
  (((Packet.mk []).add_byte PacketType.KEYBOARD_EVENT.val).add_string
      key_code).add_byte state.val

/-- `VideoContainerDataPacketFactory.create_packet` (pfactory.py lines 77-94). -/
def VideoContainerDataPacketFactory.create_packet
    (width height : Nat) (data : List Nat) : Packet :=
  ((((Packet.mk []).add_byte PacketType.VIDEO_DATA.val).add_int width).add_int
      height).add_bytes data

/-- `VideoFrameDataPacketFactory.create_packet` (pfactory.py lines 97-112):
note there is no tag byte, this is the nested VideoData body. -/
def VideoFrameDataPacketFactory.create_packet
    (encoder_type frame_type : Nat) (data : List Nat) : Packet :=
  (((Packet.mk []).add_int encoder_type).add_int frame_type).add_bytes data

/-- `SynchronizationPacketFactory.create_packet` (pfactory.py lines 115-127):
`packet.add_byte(PacketType.SYNC)` looks up the member `SYNC`, which enums.py
does not define, so the Python call raises `AttributeError`; the model
returns `none` in that case. -/
def SynchronizationPacketFactory.create_packet : Option Packet :=
  (PacketType.memberValue "SYNC").map
    (fun tag => ((Packet.mk []).add_byte tag).add_bytes SYNC_SEQUENCE)

/-- Modelled from the spec: the Sync packet tag byte is 0 (the spec's tag
table and its byte-exact example fix it; enums.py defines no such member,
see `SynchronizationPacketFactory.create_packet`). -/
def specSyncTag : Nat := 0x00

/-- Modelled from the spec: the bytes of the Sync packet the writer intends
to inject, built exactly as the factory builds them but with the spec's tag. -/
def specSyncPacketBytes : List Nat :=
  (((Packet.mk []).add_byte specSyncTag).add_bytes SYNC_SEQUENCE).get_bytes

/-! ## dao.py -/

/-- The decoded payload objects of dao.py (fields in constructor order). -/
inductive AbstractDataObject where
  | VideoData (width height encoder_type frame_type : Nat) (data : List Nat)
  | MouseMoveData (x y : Nat)
  | MouseClickData (x y : Nat) (button : MouseButton) (state : ButtonState)
  | KeyboardData (key : Nat) (state : ButtonState)
deriving DecidableEq, Repr

/-! ## pread.py -/

/-- `SocketDataReader`: `data` is the full byte stream the connection has
delivered; `pos` is `self.buffer.tell()`.  `self.buffer.getvalue()` is
`data`, the unread part is `data.drop pos`. -/
structure SocketDataReader where
  data : List Nat
  pos : Nat
deriving DecidableEq, Repr

namespace SocketDataReader

/-- `read_byte`: `_ensure_data(1)` then one byte; `Err.noData` models
`NoDataAvailableError` once the connection has run dry. -/
def read_byte (r : SocketDataReader) : Except Err (Nat × SocketDataReader) :=
  match r.data.drop r.pos with
  | [] => .error .noData
  | b :: _ => .ok (b, { r with pos := r.pos + 1 })

/-- `read_int`: `_ensure_data(4)` then `struct.unpack` with format `>I`. -/
def read_int (r : SocketDataReader) : Except Err (Nat × SocketDataReader) :=
  match r.data.drop r.pos with
  | b0 :: b1 :: b2 :: b3 :: _ =>
      .ok (((b0 * 256 + b1) * 256 + b2) * 256 + b3, { r with pos := r.pos + 4 })
  | _ => .error .noData

/-- `read_bytes`: u32 length then that many bytes. -/
def read_bytes (r : SocketDataReader) : Except Err (List Nat × SocketDataReader) :=
  match r.read_int with
  | .error e => .error e
  | .ok (len, r1) =>
      let rem := r1.data.drop r1.pos
      if len ≤ rem.length then
        .ok (rem.take len, { r1 with pos := r1.pos + len })
      else
        .error .noData

/-- `_flush_read_data`: drop the consumed prefix, reset the cursor. -/
def flush_read_data (r : SocketDataReader) : SocketDataReader :=
  ⟨r.data.drop r.pos, 0⟩

end SocketDataReader

/-- `bytes.find` for the sync sequence: index of the first occurrence of
`pat` in `content`, `none` when absent (Python returns -1). -/
def findSubseq (pat : List Nat) : List Nat → Option Nat
  | [] => none
  | b :: tl =>
      if pat.isPrefixOf (b :: tl) then some 0
      else (findSubseq pat tl).map (· + 1)

namespace SocketDataReader

/-- `_seek_to_end_of_sync_packet`: search the whole `getvalue()` buffer for
the sync sequence and position just past it. -/
def seek_to_end_of_sync_packet (r : SocketDataReader) :
    Option SocketDataReader :=
  (findSubseq SYNC_SEQUENCE r.data).map
    (fun i => { r with pos := i + SYNC_SEQUENCE.length })

/-- The resynchronisation loop of `read_packet`
(`while not self._seek_to_end_of_sync_packet(): self._flush_read_data();
self._ensure_data(self._buffer_size)`), closed form for a dried-up
connection: if the sequence is absent, flushing cannot create an occurrence,
so either `_ensure_data(256)` raises `NoDataAvailableError` (fewer than 256
unread bytes remain) or the loop spins forever (`Err.stuck`). -/
def resync (r : SocketDataReader) : Except Err SocketDataReader :=
  match r.seek_to_end_of_sync_packet with
  | some r2 => .ok r2
  | none =>
      if 256 ≤ r.data.length - r.pos then .error .stuck else .error .noData

/-- The per-tag body parse of `read_packet` (pread.py lines 140-178),
including the `finally: self._flush_read_data()` on the success path. -/
def parse_body (pt : PacketType) (r1 : SocketDataReader) :
    Except Err ((PacketType × AbstractDataObject) × SocketDataReader) :=
  match pt with
  | .VIDEO_DATA =>
      match r1.read_int with
      | .error e => .error e
      | .ok (width, r2) =>
      match r2.read_int with
      | .error e => .error e
      | .ok (height, r3) =>
      match r3.read_bytes with
      | .error e => .error e
      | .ok (frame_packet, r4) =>
      -- seek back to the start of the nested frame packet
      let r5 : SocketDataReader := { r4 with pos := r4.pos - frame_packet.length }
      match r5.read_int with
      | .error e => .error e
      | .ok (encoder_type, r6) =>
      match r6.read_int with
      | .error e => .error e
      | .ok (frame_type, r7) =>
      match r7.read_bytes with
      | .error e => .error e
      | .ok (encoded_frame, r8) =>
        .ok ((pt, .VideoData width height encoder_type frame_type encoded_frame),
          r8.flush_read_data)
  | .MOUSE_MOVE =>
      match r1.read_int with
      | .error e => .error e
      | .ok (x, r2) =>
      match r2.read_int with
      | .error e => .error e
      | .ok (y, r3) =>
        .ok ((pt, .MouseMoveData x y), r3.flush_read_data)
  | .MOUSE_CLICK =>
      match r1.read_byte with
      | .error e => .error e
      | .ok (bb, r2) =>
      match MouseButton.ofNat? bb with
      | none => .error .valueError
      | some button =>
      match r2.read_byte with
      | .error e => .error e
      | .ok (sb, r3) =>
      match ButtonState.ofNat? sb with
      | none => .error .valueError
      | some state =>
      match r3.read_int with
      | .error e => .error e
      | .ok (x, r4) =>
      match r4.read_int with
      | .error e => .error e
      | .ok (y, r5) =>
        .ok ((pt, .MouseClickData x y button state), r5.flush_read_data)
  | .KEYBOARD_EVENT =>
      match r1.read_int with
      | .error e => .error e
      | .ok (kc, r2) =>
      -- ASCIIEnum(kc): members are exactly the values 0..127
      if kc < 128 then
        match r2.read_byte with
        | .error e => .error e
        | .ok (sb, r3) =>
        match ButtonState.ofNat? sb with
        | none => .error .valueError
        | some state =>
          .ok ((pt, .KeyboardData kc state), r3.flush_read_data)
      else .error .valueError

/-- `read_packet` (pread.py lines 129-178) with explicit fuel for the outer
`while True` loop.  A `ValueError` on the tag byte enters resynchronisation;
any exception raised while parsing the body propagates to the caller. -/
def read_packet :
    Nat → SocketDataReader →
    Except Err ((PacketType × AbstractDataObject) × SocketDataReader)
  | 0, _ => .error .fuelOut
  | fuel + 1, r =>
      match r.read_byte with
      | .error e => .error e
      | .ok (b, r1) =>
        match PacketType.ofNat? b with
        | none =>
            match r1.resync with
            | .ok r2 => read_packet fuel r2
            | .error e => .error e
        | some pt => parse_body pt r1

end SocketDataReader

/-! ## pwrite.py -/

/-- `SocketDataWriter` timer state: `_sync_packet_timeout` and
`_last_sync_packet`; times are rationals standing for `time.time()` values. -/
structure SocketDataWriter where
  sync_packet_timeout : ℚ
  last_sync_packet : ℚ
deriving DecidableEq, Repr

/-- The default value of the `sync_packet_timeout` keyword argument of
`SocketDataWriter.__init__` (pwrite.py line 16). -/
def default_sync_packet_timeout : ℚ := 0.5

/-- `SocketDataWriter.write_packet` (pwrite.py lines 21-30).  `now` stands
for `time.time()`; the result is the byte sequence appended to the output
stream, paired with the updated writer state.  When more than the timeout
elapsed since the last injection and an output stream is available, the
source re-arms the timer and then evaluates
`SynchronizationPacketFactory.create_packet()` — which raises
`AttributeError`, because enums.py defines no `PacketType.SYNC` member (see
the factory model): `none` models that exception propagating out of
`write_packet`, so neither a Sync packet nor the data packet is written on
such a call.  (The re-arm happens just before the raise; the mutated timer
is unobservable through the exception.)  The dead `some sync` arm mirrors
what the source would write if the factory returned a packet. -/
def SocketDataWriter.write_packet (w : SocketDataWriter) (now : ℚ)
    (stream_present : Bool) (packet : Packet) :
    Option (List Nat × SocketDataWriter) :=
  if w.sync_packet_timeout < now - w.last_sync_packet then
    if stream_present then
      match SynchronizationPacketFactory.create_packet with
      | none => none
      | some sync =>
          let w2 : SocketDataWriter := { w with last_sync_packet := now }
          if stream_present then some (sync.get_bytes ++ packet.get_bytes, w2)
          else some (sync.get_bytes, w2)
    else
      if stream_present then some (packet.get_bytes, w) else some ([], w)
  else
    if stream_present then some (packet.get_bytes, w) else some ([], w)

/-! ## processor.py -/

/-- Python `queue.Queue`: `maxsize` 0 means unbounded (queue.Queue
semantics); `items` front-to-back. -/
structure PyQueue (α : Type) where
  maxsize : Nat
  items : List α
deriving DecidableEq, Repr

/-- `Queue.qsize`. -/
def PyQueue.qsize (q : PyQueue α) : Nat := q.items.length

/-- `Queue.put_nowait`: raises `queue.Full` (the `.error` case) iff the queue
is bounded and full. -/
def PyQueue.put_nowait (q : PyQueue α) (a : α) : Except Unit (PyQueue α) :=
  if 0 < q.maxsize ∧ q.maxsize ≤ q.items.length then .error ()
  else .ok { q with items := q.items ++ [a] }

/-- Enqueue a whole list with `put_nowait`, stopping at the first `Full`. -/
def PyQueue.put_all (q : PyQueue α) : List α → Except Unit (PyQueue α)
  | [] => .ok q
  | a :: as =>
      match q.put_nowait a with
      | .error e => .error e
      | .ok q2 => q2.put_all as

/-- `PacketProcessor.__init__` (processor.py lines 17-23) builds
`{ptype: Queue() for ptype in PacketType}`: one fresh default-constructed
(hence unbounded) queue per packet type. -/
def PacketProcessor.initQueue (_pt : PacketType) :
    PyQueue AbstractDataObject :=
  ⟨0, []⟩

/-- What one iteration of `PacketProcessor.run` (processor.py lines 31-47)
does with the outcome of `read_packet`: enqueue on success (a `queue.Full` is
swallowed by `pass`), sleep 10 ms and retry on `NoConnection` /
`NoDataAvailableError`, fall through on `RuntimeError`; any other exception
is uncaught and aborts the task. -/
inductive RunOutcome where
  | enqueuedOrDropped
  | sleptRetry
  | swallowed
  | aborted
deriving DecidableEq, Repr

def PacketProcessor.run_step
    (result : Except Err ((PacketType × AbstractDataObject) × SocketDataReader)) :
    RunOutcome :=
  match result with
  | .ok _ => .enqueuedOrDropped
  | .error .noConnection => .sleptRetry
  | .error .noData => .sleptRetry
  | .error .runtimeError => .swallowed
  | .error _ => .aborted

/-- The retry sleep of `PacketProcessor.run`: `time.sleep(0.01)`. -/
def PacketProcessor.retry_sleep_seconds : ℚ := 0.01

/-! ## encode.py -/

/-- `DefaultEncoder.ID` (encode.py line 22). -/
def DefaultEncoder.ID : Nat := 0x01

/-- `DefaultEncoder.FrameType` members (encode.py lines 24-26). -/
def DefaultEncoder.FULL_FRAME : Nat := 0x01

def DefaultEncoder.DIFF_FRAME : Nat := 0x02

/-- `DefaultEncoder` state: `_fps` and `_frame_count` (`__init__` sets the
count to 0).  The retained `_last_frame` only feeds the diff branch, which
always raises before using it (see `encode_frame`). -/
structure DefaultEncoder where
  fps : Nat
  frame_count : Nat
deriving DecidableEq, Repr

/-- `DefaultEncoder.encode_frame` (encode.py lines 33-55).  `compress`
abstracts `zlib.compress`.  `none` models the exceptions Python raises:
when the frame size does not match `width*height*3` (`np.reshape`); when
`fps` is 0 (`ZeroDivisionError` in `%`); and in the whole
`frame_count % fps != 0` branch, which can never reach its
`VideoFrameDataPacketFactory` call: line 35 discards the result of
`nframe.reshape(...)`, so `nframe` — and hence
`diff = cv2.absdiff(self._last_frame, nframe)` — stays one-dimensional and
`cv2.cvtColor(diff, cv2.COLOR_RGB2GRAY)` raises `cv2.error` (it needs a
3-channel image); independently, `cv2.bitwise_and(frame, frame, mask=mask)`
is fed the raw Python `bytes` object, which cv2 rejects.  A body is
therefore produced exactly when `frame_count % fps == 0`, always FULL_FRAME
at encoder id `DefaultEncoder.ID`, with the counter reset to 1. -/
def DefaultEncoder.encode_frame (compress : List Nat → List Nat)
    (e : DefaultEncoder) (width height : Nat) (frame : List Nat) :
    Option (List Nat × DefaultEncoder) :=
  if frame.length ≠ width * height * 3 then none
  else if e.fps = 0 then none
  else if e.frame_count % e.fps = 0 then
    some ((VideoFrameDataPacketFactory.create_packet DefaultEncoder.ID
      DefaultEncoder.FULL_FRAME (compress frame)).get_bytes,
      { e with frame_count := 1 })
  else none

/-- Parse a nested VideoData body `{encoder_id, frame_kind, encoded_frame}`
with the reader primitives, exactly as the VIDEO_DATA branch of
`read_packet` re-parses it after seeking back. -/
def parseVideoBody (body : List Nat) : Option (Nat × Nat × List Nat) :=
  match (SocketDataReader.mk body 0).read_int with
  | .error _ => none
  | .ok (enc, r1) =>
  match r1.read_int with
  | .error _ => none
  | .ok (ft, r2) =>
  match r2.read_bytes with
  | .error _ => none
  | .ok (payload, _) => some (enc, ft, payload)

/-! ## The wire grammar accepted by `read_packet` -/

/-- The family of well-formed wire packets: one case per `PacketType`.  The
first three encode through the pfactory.py factories.  The KEYBOARD_EVENT
case is the byte form the *decoder* consumes (tag, u32 key value, state
byte); `KeyboardEventPacketFactory` produces a different byte form — that
mismatch is the subject of the round-trip claim. -/
inductive WirePacket where
  | mouseMove (x y : Nat)
  | mouseClick (x y : Nat) (button : MouseButton) (state : ButtonState)
  | video (width height encoder_type frame_type : Nat) (payload : List Nat)
  | keyboard (key : Nat) (state : ButtonState)
deriving DecidableEq, Repr

/-- Field bounds under which Python serialises without raising: u32 fields
below `2 ^ 32`, key values inside `ASCIIEnum`. -/
def WirePacket.Valid : WirePacket → Prop
  | .mouseMove x y => x < 2 ^ 32 ∧ y < 2 ^ 32
  | .mouseClick x y _ _ => x < 2 ^ 32 ∧ y < 2 ^ 32
  | .video w h enc ft payload =>
      w < 2 ^ 32 ∧ h < 2 ^ 32 ∧ enc < 2 ^ 32 ∧ ft < 2 ^ 32 ∧
        payload.length + 12 < 2 ^ 32
  | .keyboard k _ => k < 128

instance : DecidablePred WirePacket.Valid := by
  intro p
  cases p <;> simp only [WirePacket.Valid] <;> infer_instance

/-- The on-wire bytes of a packet. -/
def WirePacket.encode : WirePacket → List Nat
  | .mouseMove x y => (MouseMovePacketFactory.create_packet x y).get_bytes
  | .mouseClick x y b s =>
      (MouseClickPacketFactory.create_packet x y b s).get_bytes
  | .video w h enc ft payload =>
      (VideoContainerDataPacketFactory.create_packet w h
        (VideoFrameDataPacketFactory.create_packet enc ft payload).get_bytes).get_bytes
  | .keyboard k s => PacketType.KEYBOARD_EVENT.val :: u32be k ++ [s.val]

/-- The `PacketType` the decoder reports for the packet. -/
def WirePacket.ptype : WirePacket → PacketType
  | .mouseMove _ _ => .MOUSE_MOVE
  | .mouseClick _ _ _ _ => .MOUSE_CLICK
  | .video _ _ _ _ _ => .VIDEO_DATA
  | .keyboard _ _ => .KEYBOARD_EVENT

/-- The payload object the decoder returns for the packet. -/
def WirePacket.dao : WirePacket → AbstractDataObject
  | .mouseMove x y => .MouseMoveData x y
  | .mouseClick x y b s => .MouseClickData x y b s
  | .video w h enc ft payload => .VideoData w h enc ft payload
  | .keyboard k s => .KeyboardData k s

/-! ## Reader stepping lemmas -/

theorem u32be_val (v : Nat) (hv : v < 2 ^ 32) :
    ((v / 2 ^ 24 % 256 * 256 + v / 2 ^ 16 % 256) * 256 + v / 2 ^ 8 % 256) * 256
      + v % 256 = v := by
  have h32 : (2 : Nat) ^ 32 = 4294967296 := by norm_num
  have h24 : (2 : Nat) ^ 24 = 16777216 := by norm_num
  have h16 : (2 : Nat) ^ 16 = 65536 := by norm_num
  have h8 : (2 : Nat) ^ 8 = 256 := by norm_num
  rw [h24, h16, h8]
  rw [h32] at hv
  omega

theorem drop_add_of_drop {l s t : List Nat} {p n : Nat}
    (h : l.drop p = s ++ t) (hn : n = s.length) : l.drop (p + n) = t := by
  subst hn
  calc l.drop (p + s.length) = (l.drop p).drop s.length := by
        rw [List.drop_drop, Nat.add_comm]
    _ = t := by rw [h, List.drop_left]

theorem read_byte_of_drop {r : SocketDataReader} {b : Nat} {t : List Nat}
    (h : r.data.drop r.pos = b :: t) :
    r.read_byte = .ok (b, { r with pos := r.pos + 1 }) ∧
      r.data.drop (r.pos + 1) = t := by
  refine ⟨?_, ?_⟩
  · unfold SocketDataReader.read_byte
    rw [h]
  · exact drop_add_of_drop (s := [b]) h rfl

theorem read_int_of_drop {r : SocketDataReader} {v : Nat} {t : List Nat}
    (hv : v < 2 ^ 32) (h : r.data.drop r.pos = u32be v ++ t) :
    r.read_int = .ok (v, { r with pos := r.pos + 4 }) ∧
      r.data.drop (r.pos + 4) = t := by
  refine ⟨?_, ?_⟩
  · unfold SocketDataReader.read_int
    rw [h]
    simp only [u32be, List.cons_append, List.nil_append]
    rw [u32be_val v hv]
  · exact drop_add_of_drop (s := u32be v) h rfl

theorem read_bytes_of_drop {r : SocketDataReader} {bs t : List Nat}
    (hlen : bs.length < 2 ^ 32)
    (h : r.data.drop r.pos = u32be bs.length ++ (bs ++ t)) :
    r.read_bytes = .ok (bs, { r with pos := r.pos + 4 + bs.length }) ∧
      r.data.drop (r.pos + 4 + bs.length) = t := by
  obtain ⟨hint, hdrop⟩ := read_int_of_drop hlen h
  have hdrop2 : r.data.drop (r.pos + 4 + bs.length) = t :=
    drop_add_of_drop (s := bs) hdrop rfl
  refine ⟨?_, hdrop2⟩
  unfold SocketDataReader.read_bytes
  rw [hint]
  simp only [hdrop, List.length_append, le_add_iff_nonneg_right, Nat.zero_le,
    if_true, List.take_left]

theorem flush_of_drop {r : SocketDataReader} {t : List Nat}
    (h : r.data.drop r.pos = t) : r.flush_read_data = ⟨t, 0⟩ := by
  unfold SocketDataReader.flush_read_data
  rw [h]

/-! ## `read_packet` on a well-formed packet at the head of the stream -/

theorem read_packet_mouseMove (x y : Nat) (hx : x < 2 ^ 32) (hy : y < 2 ^ 32)
    (pre rest : List Nat) (fuel : Nat) :
    SocketDataReader.read_packet (fuel + 1)
        ⟨pre ++ ((WirePacket.mouseMove x y).encode ++ rest), pre.length⟩ =
      .ok ((PacketType.MOUSE_MOVE, .MouseMoveData x y), ⟨rest, 0⟩) := by
  set D := pre ++ ((WirePacket.mouseMove x y).encode ++ rest) with hD
  have hd0 : D.drop pre.length = 2 :: (u32be x ++ (u32be y ++ rest)) := by
    rw [hD, List.drop_left]
    simp [WirePacket.encode, MouseMovePacketFactory.create_packet,
      Packet.add_byte, Packet.add_int, Packet.get_bytes, PacketType.val]
  obtain ⟨hb, hd1⟩ := read_byte_of_drop (r := ⟨D, pre.length⟩) hd0
  obtain ⟨hrx, hd2⟩ := read_int_of_drop (r := ⟨D, pre.length + 1⟩) hx hd1
  obtain ⟨hry, hd3⟩ := read_int_of_drop (r := ⟨D, pre.length + 1 + 4⟩) hy hd2
  have hf := flush_of_drop (r := ⟨D, pre.length + 1 + 4 + 4⟩) hd3
  simp only [SocketDataReader.read_packet, SocketDataReader.parse_body, hb,
    PacketType.ofNat?, hrx, hry, hf]

theorem mouseButton_val_mod (b : MouseButton) : b.val % 256 = b.val := by
  cases b <;> rfl

theorem buttonState_val_mod (s : ButtonState) : s.val % 256 = s.val := by
  cases s <;> rfl

theorem mouseButton_ofNat_of_val (b : MouseButton) : MouseButton.ofNat? b.val = some b := by
  cases b <;> rfl

theorem buttonState_ofNat_of_val (s : ButtonState) : ButtonState.ofNat? s.val = some s := by
  cases s <;> rfl

theorem read_packet_mouseClick (x y : Nat) (button : MouseButton)
    (state : ButtonState) (hx : x < 2 ^ 32) (hy : y < 2 ^ 32)
    (pre rest : List Nat) (fuel : Nat) :
    SocketDataReader.read_packet (fuel + 1)
        ⟨pre ++ ((WirePacket.mouseClick x y button state).encode ++ rest),
          pre.length⟩ =
      .ok ((PacketType.MOUSE_CLICK, .MouseClickData x y button state),
        ⟨rest, 0⟩) := by
  set D := pre ++ ((WirePacket.mouseClick x y button state).encode ++ rest)
    with hD
  have hd0 : D.drop pre.length =
      1 :: (button.val :: (state.val :: (u32be x ++ (u32be y ++ rest)))) := by
    rw [hD, List.drop_left]
    simp [WirePacket.encode, MouseClickPacketFactory.create_packet,
      Packet.add_byte, Packet.add_int, Packet.get_bytes, PacketType.val,
      mouseButton_val_mod, buttonState_val_mod]
  obtain ⟨hb, hd1⟩ := read_byte_of_drop (r := ⟨D, pre.length⟩) hd0
  obtain ⟨hbb, hd2⟩ := read_byte_of_drop (r := ⟨D, pre.length + 1⟩) hd1
  obtain ⟨hsb, hd3⟩ := read_byte_of_drop (r := ⟨D, pre.length + 1 + 1⟩) hd2
  obtain ⟨hrx, hd4⟩ :=
    read_int_of_drop (r := ⟨D, pre.length + 1 + 1 + 1⟩) hx hd3
  obtain ⟨hry, hd5⟩ :=
    read_int_of_drop (r := ⟨D, pre.length + 1 + 1 + 1 + 4⟩) hy hd4
  have hf := flush_of_drop (r := ⟨D, pre.length + 1 + 1 + 1 + 4 + 4⟩) hd5
  simp only [SocketDataReader.read_packet, SocketDataReader.parse_body, hb,
    PacketType.ofNat?, hbb, mouseButton_ofNat_of_val, hsb, buttonState_ofNat_of_val,
    hrx, hry, hf]

theorem read_packet_keyboard (k : Nat) (state : ButtonState) (hk : k < 128)
    (pre rest : List Nat) (fuel : Nat) :
    SocketDataReader.read_packet (fuel + 1)
        ⟨pre ++ ((WirePacket.keyboard k state).encode ++ rest), pre.length⟩ =
      .ok ((PacketType.KEYBOARD_EVENT, .KeyboardData k state), ⟨rest, 0⟩) := by
  have hk32 : k < 2 ^ 32 := lt_trans hk (by norm_num)
  set D := pre ++ ((WirePacket.keyboard k state).encode ++ rest) with hD
  have hd0 : D.drop pre.length = 4 :: (u32be k ++ (state.val :: rest)) := by
    rw [hD, List.drop_left]
    simp [WirePacket.encode, PacketType.val]
  obtain ⟨hb, hd1⟩ := read_byte_of_drop (r := ⟨D, pre.length⟩) hd0
  obtain ⟨hrk, hd2⟩ := read_int_of_drop (r := ⟨D, pre.length + 1⟩) hk32 hd1
  obtain ⟨hsb, hd3⟩ := read_byte_of_drop (r := ⟨D, pre.length + 1 + 4⟩) hd2
  have hf := flush_of_drop (r := ⟨D, pre.length + 1 + 4 + 1⟩) hd3
  simp only [SocketDataReader.read_packet, SocketDataReader.parse_body, hb,
    PacketType.ofNat?, hrk, hk, if_true, hsb, buttonState_ofNat_of_val, hf]

theorem read_packet_video (w h enc ft : Nat) (payload : List Nat)
    (h1 : w < 2 ^ 32) (h2 : h < 2 ^ 32) (h3 : enc < 2 ^ 32) (h4 : ft < 2 ^ 32)
    (h5 : payload.length + 12 < 2 ^ 32) (pre rest : List Nat) (fuel : Nat) :
    SocketDataReader.read_packet (fuel + 1)
        ⟨pre ++ ((WirePacket.video w h enc ft payload).encode ++ rest),
          pre.length⟩ =
      .ok ((PacketType.VIDEO_DATA, .VideoData w h enc ft payload),
        ⟨rest, 0⟩) := by
  have hpow : (2 : Nat) ^ 32 = 4294967296 := by norm_num
  set E := u32be enc ++ (u32be ft ++ (u32be payload.length ++ payload)) with hE
  have hElen : E.length = payload.length + 12 := by
    rw [hE]
    simp [u32be]
  have hElt : E.length < 2 ^ 32 := by
    rw [hElen]
    exact h5
  have hplt : payload.length < 2 ^ 32 := by
    rw [hpow] at h5 ⊢
    omega
  set D := pre ++ ((WirePacket.video w h enc ft payload).encode ++ rest)
    with hD
  have hd0 : D.drop pre.length =
      3 :: (u32be w ++ (u32be h ++ (u32be E.length ++ (E ++ rest)))) := by
    rw [hD, List.drop_left]
    simp [hE, WirePacket.encode, VideoContainerDataPacketFactory.create_packet,
      VideoFrameDataPacketFactory.create_packet, Packet.add_byte,
      Packet.add_int, Packet.add_bytes, Packet.get_bytes, PacketType.val,
      u32be]
  obtain ⟨hb, hd1⟩ := read_byte_of_drop (r := ⟨D, pre.length⟩) hd0
  obtain ⟨hrw, hd2⟩ := read_int_of_drop (r := ⟨D, pre.length + 1⟩) h1 hd1
  obtain ⟨hrh, hd3⟩ := read_int_of_drop (r := ⟨D, pre.length + 1 + 4⟩) h2 hd2
  obtain ⟨hrb, hd4⟩ :=
    read_bytes_of_drop (r := ⟨D, pre.length + 1 + 4 + 4⟩) hElt hd3
  obtain ⟨hlenint, hdE⟩ :=
    read_int_of_drop (r := ⟨D, pre.length + 1 + 4 + 4⟩) hElt hd3
  have harith : pre.length + 1 + 4 + 4 + 4 + E.length - E.length =
      pre.length + 1 + 4 + 4 + 4 := by omega
  have hdE2 : D.drop (pre.length + 1 + 4 + 4 + 4) =
      u32be enc ++ (u32be ft ++ (u32be payload.length ++ (payload ++ rest))) := by
    rw [hdE, hE]
    simp [List.append_assoc]
  obtain ⟨hre, hd5⟩ :=
    read_int_of_drop (r := ⟨D, pre.length + 1 + 4 + 4 + 4⟩) h3 hdE2
  obtain ⟨hrf, hd6⟩ :=
    read_int_of_drop (r := ⟨D, pre.length + 1 + 4 + 4 + 4 + 4⟩) h4 hd5
  obtain ⟨hrp, hd7⟩ :=
    read_bytes_of_drop (r := ⟨D, pre.length + 1 + 4 + 4 + 4 + 4 + 4⟩) hplt hd6
  have hf := flush_of_drop
    (r := ⟨D, pre.length + 1 + 4 + 4 + 4 + 4 + 4 + 4 + payload.length⟩) hd7
  simp only [SocketDataReader.read_packet, SocketDataReader.parse_body, hb,
    PacketType.ofNat?, hrw, hrh, hrb, harith, hre, hrf, hrp, hf]

/-- Any valid wire packet at the read position decodes to its payload, and
the final buffer compaction leaves exactly the bytes that follow it. -/
theorem read_packet_wire (p : WirePacket) (hp : p.Valid) (pre rest : List Nat)
    (fuel : Nat) :
    SocketDataReader.read_packet (fuel + 1)
        ⟨pre ++ (p.encode ++ rest), pre.length⟩ =
      .ok ((p.ptype, p.dao), ⟨rest, 0⟩) := by
  cases p with
  | mouseMove x y =>
      obtain ⟨hx, hy⟩ := hp
      exact read_packet_mouseMove x y hx hy pre rest fuel
  | mouseClick x y button state =>
      obtain ⟨hx, hy⟩ := hp
      exact read_packet_mouseClick x y button state hx hy pre rest fuel
  | video w h enc ft payload =>
      obtain ⟨h1, h2, h3, h4, h5⟩ := hp
      exact read_packet_video w h enc ft payload h1 h2 h3 h4 h5 pre rest fuel
  | keyboard k state =>
      exact read_packet_keyboard k state hp pre rest fuel

theorem specSyncPacketBytes_eq :
    specSyncPacketBytes = [0, 0, 0, 0, 8, 0, 1, 0, 1, 0, 1, 0, 1] := by
  decide

/-- Resynchronisation: an arbitrary garbage prefix whose first byte is not a
valid tag is skipped up to the first sync sequence, after which the stream
decodes normally. -/
theorem read_packet_after_sync_helper (S : List Nat) (p1 p2 : WirePacket)
    (h1 : p1.Valid) (h2 : p2.Valid)
    (hhead : PacketType.ofNat?
      ((S ++ (specSyncPacketBytes ++ (p1.encode ++ p2.encode))).headD 0) = none)
    (hfind : findSubseq SYNC_SEQUENCE
        (S ++ (specSyncPacketBytes ++ (p1.encode ++ p2.encode))) =
      some (S.length + 5)) :
    SocketDataReader.read_packet 2
        ⟨S ++ (specSyncPacketBytes ++ (p1.encode ++ p2.encode)), 0⟩ =
        .ok ((p1.ptype, p1.dao), ⟨p2.encode, 0⟩) ∧
      SocketDataReader.read_packet 1 ⟨p2.encode, 0⟩ =
        .ok ((p2.ptype, p2.dao), ⟨[], 0⟩) := by
  constructor
  · set stream := S ++ (specSyncPacketBytes ++ (p1.encode ++ p2.encode))
      with hstream
    have hne : stream ≠ [] := by
      rw [hstream, specSyncPacketBytes_eq]
      cases S <;> simp
    obtain ⟨b, t, hbt⟩ := List.exists_cons_of_ne_nil hne
    have hb : PacketType.ofNat? b = none := by
      rw [hbt] at hhead
      simpa using hhead
    have hread : SocketDataReader.read_byte ⟨stream, 0⟩ =
        .ok (b, ⟨stream, 0 + 1⟩) := by
      have hd : stream.drop 0 = b :: t := by
        rw [List.drop_zero]
        exact hbt
      exact (read_byte_of_drop (r := ⟨stream, 0⟩) hd).1
    have hresync : SocketDataReader.resync ⟨stream, 0 + 1⟩ =
        .ok ⟨stream, S.length + 5 + SYNC_SEQUENCE.length⟩ := by
      unfold SocketDataReader.resync SocketDataReader.seek_to_end_of_sync_packet
      simp only [hfind, Option.map_some']
    have hr2 : (⟨stream, S.length + 5 + SYNC_SEQUENCE.length⟩ :
        SocketDataReader) =
        ⟨(S ++ specSyncPacketBytes) ++ (p1.encode ++ p2.encode),
          (S ++ specSyncPacketBytes).length⟩ := by
      rw [hstream]
      congr 1
      · simp [List.append_assoc]
      · simp [specSyncPacketBytes_eq, SYNC_SEQUENCE]
    show SocketDataReader.read_packet (1 + 1) ⟨stream, 0⟩ = _
    simp only [SocketDataReader.read_packet, hread, hb, hresync]
    rw [hr2]
    exact read_packet_wire p1 h1 (S ++ specSyncPacketBytes) p2.encode 0
  · have := read_packet_wire p2 h2 [] [] 0
    simpa using this

/-! ## Queue, dispatcher and writer lemmas -/

theorem put_all_unbounded {α : Type} (xs : List α) (acc : List α) :
    PyQueue.put_all ⟨0, acc⟩ xs = .ok ⟨0, acc ++ xs⟩ := by
  induction xs generalizing acc with
  | nil => simp [PyQueue.put_all]
  | cons a as ih =>
      simp [PyQueue.put_all, PyQueue.put_nowait, ih]

theorem parseVideoBody_encode (enc ft : Nat) (payload : List Nat)
    (h3 : enc < 2 ^ 32) (h4 : ft < 2 ^ 32) (hp : payload.length < 2 ^ 32) :
    parseVideoBody
        (VideoFrameDataPacketFactory.create_packet enc ft payload).get_bytes =
      some (enc, ft, payload) := by
  have hbody : (VideoFrameDataPacketFactory.create_packet enc ft payload).get_bytes
      = u32be enc ++ (u32be ft ++ (u32be payload.length ++ payload)) := by
    simp [VideoFrameDataPacketFactory.create_packet, Packet.add_int,
      Packet.add_bytes, Packet.get_bytes, List.append_assoc]
  rw [hbody]
  set B := u32be enc ++ (u32be ft ++ (u32be payload.length ++ payload)) with hB
  have hd0 : B.drop 0 =
      u32be enc ++ (u32be ft ++ (u32be payload.length ++ (payload ++ []))) := by
    rw [List.drop_zero, hB]
    simp
  obtain ⟨hre, hd1⟩ := read_int_of_drop (r := ⟨B, 0⟩) h3 hd0
  obtain ⟨hrf, hd2⟩ := read_int_of_drop (r := ⟨B, 0 + 4⟩) h4 hd1
  obtain ⟨hrp, hd3⟩ := read_bytes_of_drop (r := ⟨B, 0 + 4 + 4⟩) hp hd2
  simp only [parseVideoBody, hre, hrf, hrp]

/-! ## Claims -/

/-- C1: the spec claims `decode(encode(P(V))) == P(V)` for every packet kind,
in particular that decoding the bytes of
`KeyboardEventPacketFactory.create_packet(k, s)` yields the `KeyboardData`
`(k, s)`.  The code cannot do this: the factory writes a length-prefixed
UTF-8 string while the decoder reads a 4-byte integer key and a state byte.
Evaluated at the key string "a" (UTF-8 bytes `[97]`) with state PRESS, the
decoder consumes the length prefix `1` as the key and then raises
`ValueError` trying to build `ButtonState(97)`. -/
theorem keyboard_roundtrip_raises :
    SocketDataReader.read_packet 1
        ⟨(KeyboardEventPacketFactory.create_packet [97]
            ButtonState.PRESS).get_bytes, 0⟩ =
      .error .valueError := by
  rfl

/-- C2: counterexample — the wire bytes of
`MouseClick{x=100, y=200, button=LEFT, state=PRESS}` do not start with tag
byte 2: enums.py defines `MOUSE_CLICK = 0x01`. -/
theorem mouse_click_bytes_not_tag_two :
    (MouseClickPacketFactory.create_packet 100 200 MouseButton.LEFT
        ButtonState.PRESS).get_bytes ≠
      [0x02, 0x01, 0x01, 0x00, 0x00, 0x00, 0x64, 0x00, 0x00, 0x00, 0xC8] := by
  decide

/-- C2 (amended): for (x=100, y=200, button=LEFT, state=PRESS),
`MouseClickPacketFactory.create_packet` produces exactly the 11 bytes
`01 01 01 00 00 00 64 00 00 00 C8`: tag byte 1 for MouseClick followed by
button, state, and the two big-endian u32 coordinates. -/
theorem mouse_click_bytes_example :
    (MouseClickPacketFactory.create_packet 100 200 MouseButton.LEFT
        ButtonState.PRESS).get_bytes =
      [0x01, 0x01, 0x01, 0x00, 0x00, 0x00, 0x64, 0x00, 0x00, 0x00, 0xC8] := by
  decide

/-- C3: counterexample — for the one-byte prefix `S = [0x01]` (a valid
MOUSE_CLICK tag), the reader does not resynchronise: it parses the Sync
packet bytes as a MouseClick payload and raises `ValueError` on the button
byte 0 instead of returning `p1`. -/
theorem resync_claim_fails_on_valid_tag_prefix :
    SocketDataReader.read_packet 2
        ⟨[0x01] ++ (specSyncPacketBytes ++
          ((WirePacket.mouseMove 1 2).encode ++
            (WirePacket.mouseMove 3 4).encode)), 0⟩ =
      .error .valueError := by
  rfl

/-- C3 (amended): for every prefix S whose first byte is not a valid packet
tag and in which the first occurrence of the 8-byte sync sequence in the
whole stream is the one inside the injected Sync packet (at offset |S|+5),
feeding `S ++ SYNC_PACKET ++ encode(p1) ++ encode(p2)` to a fresh reader
yields p1 and then p2 in order, with all bytes of S discarded — including
when S ends in the middle of an integer field.  (For other prefixes the
reader may misparse S as a packet header, consuming into the Sync packet or
raising `ValueError`, as the counterexample shows.) -/
theorem resync_discards_prefix_then_decodes (S : List Nat) (p1 p2 : WirePacket)
    (h1 : p1.Valid) (h2 : p2.Valid)
    (hhead : PacketType.ofNat?
      ((S ++ (specSyncPacketBytes ++ (p1.encode ++ p2.encode))).headD 0) = none)
    (hfind : findSubseq SYNC_SEQUENCE
        (S ++ (specSyncPacketBytes ++ (p1.encode ++ p2.encode))) =
      some (S.length + 5)) :
    SocketDataReader.read_packet 2
        ⟨S ++ (specSyncPacketBytes ++ (p1.encode ++ p2.encode)), 0⟩ =
        .ok ((p1.ptype, p1.dao), ⟨p2.encode, 0⟩) ∧
      SocketDataReader.read_packet 1 ⟨p2.encode, 0⟩ =
        .ok ((p2.ptype, p2.dao), ⟨[], 0⟩) :=
  read_packet_after_sync_helper S p1 p2 h1 h2 hhead hfind

/-- Witness for the amended C3 at `S = [0xFF]`, `p1 = MouseMove(1,2)`,
`p2 = MouseClick(3,4,LEFT,PRESS)`. -/
theorem resync_discards_prefix_then_decodes_witness :
    SocketDataReader.read_packet 2
        ⟨[0xFF] ++ (specSyncPacketBytes ++
          ((WirePacket.mouseMove 1 2).encode ++
            (WirePacket.mouseClick 3 4 MouseButton.LEFT
              ButtonState.PRESS).encode)), 0⟩ =
        .ok ((PacketType.MOUSE_MOVE, .MouseMoveData 1 2),
          ⟨(WirePacket.mouseClick 3 4 MouseButton.LEFT
            ButtonState.PRESS).encode, 0⟩) ∧
      SocketDataReader.read_packet 1
          ⟨(WirePacket.mouseClick 3 4 MouseButton.LEFT
            ButtonState.PRESS).encode, 0⟩ =
        .ok ((PacketType.MOUSE_CLICK,
          .MouseClickData 3 4 MouseButton.LEFT ButtonState.PRESS), ⟨[], 0⟩) :=
  resync_discards_prefix_then_decodes [0xFF] (.mouseMove 1 2)
    (.mouseClick 3 4 MouseButton.LEFT ButtonState.PRESS)
    (by decide) (by decide) (by decide) (by decide)

/-- C4: counterexample — `PacketProcessor.__init__` builds every per-type
queue as a default `Queue()`: the VideoData queue has `maxsize` 0
(unbounded, not depth 1), and two successive `put_nowait` calls both succeed
leaving 2 items in it, refuting depth ≤ 1 at all times. -/
theorem video_queue_not_depth_one :
    (PacketProcessor.initQueue PacketType.VIDEO_DATA).maxsize = 0 ∧
    PyQueue.put_all (PacketProcessor.initQueue PacketType.VIDEO_DATA)
        [.VideoData 0 0 0 0 [], .VideoData 0 0 0 0 []] =
      .ok ⟨0, [.VideoData 0 0 0 0 [], .VideoData 0 0 0 0 []]⟩ ∧
    (PyQueue.mk 0 [AbstractDataObject.VideoData 0 0 0 0 [],
      .VideoData 0 0 0 0 []]).qsize = 2 := by
  exact ⟨rfl, rfl, rfl⟩

/-- C4 (amended): every per-packet-kind queue created by the dispatcher is
an unbounded `Queue()` (`maxsize` 0): no enqueue operation ever raises on
overflow, but neither the VideoData queue nor the input queues have any
depth bound or drop-newest behaviour — any number of items can be enqueued
and they all accumulate. -/
theorem processor_queues_unbounded (pt : PacketType)
    (xs : List AbstractDataObject) :
    PyQueue.put_all (PacketProcessor.initQueue pt) xs = .ok ⟨0, xs⟩ := by
  have := put_all_unbounded xs []
  simpa [PacketProcessor.initQueue] using this

/-- C5: counterexample — a MouseClick packet whose button byte is 5 (outside
the `MouseButton` enum) makes `read_packet` raise `ValueError`, which
`PacketProcessor.run` does not catch: the iteration outcome is an abort of
the task, refuting the claim that no such error propagates out of the
loop. -/
theorem run_aborts_on_bad_button_byte :
    PacketProcessor.run_step
        (SocketDataReader.read_packet 1
          ⟨[0x01, 0x05, 0x01, 0x00, 0x00, 0x00, 0x64, 0x00, 0x00, 0x00, 0xC8],
            0⟩) =
      .aborted := by
  rfl

/-- C5 (amended): `PacketProcessor.run` sleeps 10 ms and retries exactly on
`NoConnection` and `NoDataAvailableError`, and swallows `RuntimeError`; a
`ValueError` raised while decoding a payload — e.g. a MouseClick whose
button or state byte lies outside the defined enum values — is not caught
and aborts the task. -/
theorem run_step_error_policy :
    (∀ e : Err, PacketProcessor.run_step (.error e) = .sleptRetry ↔
      (e = .noConnection ∨ e = .noData)) ∧
    PacketProcessor.run_step (.error .valueError) = .aborted ∧
    PacketProcessor.run_step (.error .runtimeError) = .swallowed ∧
    PacketProcessor.retry_sleep_seconds = 1 / 100 := by
  refine ⟨?_, rfl, rfl, by norm_num [PacketProcessor.retry_sleep_seconds]⟩
  intro e
  cases e <;> simp [PacketProcessor.run_step]

/-- C6: the claimed Sync cadence cannot occur: `SocketDataWriter` never
injects a Sync packet at all.  At the first `write_packet` call more than
the timeout after construction with an output stream present (here: timer
armed at 0, write at time 1), the source re-arms the timer and then
evaluates `SynchronizationPacketFactory.create_packet()`, which raises
`AttributeError` because enums.py defines no `PacketType.SYNC` member — the
call returns nothing and writes nothing (`none`).  A call within the
interval writes only the data packet.  The interval default is moreover
0.5 s, not the claimed 1 s. -/
theorem write_packet_crashes_on_first_injection :
    SocketDataWriter.write_packet ⟨default_sync_packet_timeout, 0⟩ 1 true
        ⟨[1, 2, 3]⟩ = none ∧
    SocketDataWriter.write_packet ⟨default_sync_packet_timeout, 0⟩ (1 / 4)
        true ⟨[1, 2, 3]⟩ =
      some ([1, 2, 3], ⟨default_sync_packet_timeout, 0⟩) ∧
    default_sync_packet_timeout ≠ 1 := by
  have hsync : SynchronizationPacketFactory.create_packet = none := rfl
  refine ⟨?_, ?_, by norm_num [default_sync_packet_timeout]⟩
  · norm_num [SocketDataWriter.write_packet, hsync,
      default_sync_packet_timeout]
  · norm_num [SocketDataWriter.write_packet, default_sync_packet_timeout,
      Packet.get_bytes]

/-- C7: `SynchronizationPacketFactory.create_packet` cannot produce the
claimed 13 bytes: it evaluates `PacketType.SYNC`, a member enums.py never
defines, so the Python call raises `AttributeError` (modelled as `none`).
The 13 bytes `00 00 00 00 08 00 01 00 01 00 01 00 01` are exactly what the
factory construction yields with the spec's tag byte 0. -/
theorem sync_packet_factory_result :
    SynchronizationPacketFactory.create_packet = none ∧
    specSyncPacketBytes =
      [0x00, 0x00, 0x00, 0x00, 0x08, 0x00, 0x01, 0x00, 0x01, 0x00, 0x01,
        0x00, 0x01] := by
  exact ⟨rfl, by decide⟩

/-- C8: every nested VideoData body produced by
`DefaultEncoder.encode_frame` carries frame_kind FULL_FRAME and
encoder_id 1.  A body is produced exactly when `frame_count % fps == 0`; on
every other frame the diff branch raises before it can build a packet (see
`encode_frame`: the discarded `reshape` leaves the array one-dimensional so
`cv2.cvtColor` fails, and `cv2.bitwise_and` is fed the raw bytes object), so
FULL_FRAME bodies are the only bodies the encoder ever emits and the
DIFF_FRAME member remains unexercised room in the wire format. -/
theorem default_encoder_full_only (compress : List Nat → List Nat)
    (e e2 : DefaultEncoder) (w h : Nat) (frame body : List Nat)
    (hc : (compress frame).length < 2 ^ 32)
    (henc : DefaultEncoder.encode_frame compress e w h frame =
      some (body, e2)) :
    parseVideoBody body =
      some (DefaultEncoder.ID, DefaultEncoder.FULL_FRAME, compress frame) ∧
    DefaultEncoder.ID = 1 ∧ DefaultEncoder.FULL_FRAME = 1 := by
  refine ⟨?_, rfl, rfl⟩
  unfold DefaultEncoder.encode_frame at henc
  split at henc
  · exact absurd henc (by simp)
  · split at henc
    · exact absurd henc (by simp)
    · split at henc
      · rw [Option.some.injEq, Prod.mk.injEq] at henc
        obtain ⟨hb, _⟩ := henc
        rw [← hb]
        exact parseVideoBody_encode _ _ _
          (by norm_num [DefaultEncoder.ID])
          (by norm_num [DefaultEncoder.FULL_FRAME]) hc
      · exact absurd henc (by simp)

/-- Witness for C8 at fps 2, a fresh encoder state (frame counter 0), a 1x1
frame, and `id` for the compressor. -/
theorem default_encoder_full_only_witness :
    parseVideoBody [0, 0, 0, 1, 0, 0, 0, 1, 0, 0, 0, 3, 0, 0, 0] =
      some (DefaultEncoder.ID, DefaultEncoder.FULL_FRAME, id [0, 0, 0]) ∧
    DefaultEncoder.ID = 1 ∧ DefaultEncoder.FULL_FRAME = 1 :=
  default_encoder_full_only id ⟨2, 0⟩ ⟨2, 1⟩ 1 1 [0, 0, 0]
    [0, 0, 0, 1, 0, 0, 0, 1, 0, 0, 0, 3, 0, 0, 0]
    (by decide) (by decide)

/-- C9: when `read_packet` decodes a well-formed VideoData packet — the
outer packet built by `VideoContainerDataPacketFactory` around a body built
by `VideoFrameDataPacketFactory` — it repositions at the start of the
length-prefixed body, re-parses it, and returns a `VideoData` whose
encoder_type, frame_type and data equal the nested values the sender
serialised; the final compacted buffer is exactly the bytes following the
outer body: nothing of a following packet is consumed or skipped. -/
theorem video_decode_nested_reparse (w h enc ft : Nat)
    (payload rest : List Nat)
    (h1 : w < 2 ^ 32) (h2 : h < 2 ^ 32) (h3 : enc < 2 ^ 32) (h4 : ft < 2 ^ 32)
    (h5 : payload.length + 12 < 2 ^ 32) :
    SocketDataReader.read_packet 1
        ⟨(VideoContainerDataPacketFactory.create_packet w h
            (VideoFrameDataPacketFactory.create_packet enc ft
              payload).get_bytes).get_bytes ++ rest, 0⟩ =
      .ok ((PacketType.VIDEO_DATA, .VideoData w h enc ft payload),
        ⟨rest, 0⟩) := by
  have := read_packet_video w h enc ft payload h1 h2 h3 h4 h5 [] rest 0
  simpa [WirePacket.encode] using this

/-- Witness for C9 at w=1, h=2, encoder 1, frame kind 1, payload `[9]`,
followed by one extra byte `[7]`. -/
theorem video_decode_nested_reparse_witness :
    SocketDataReader.read_packet 1
        ⟨(VideoContainerDataPacketFactory.create_packet 1 2
            (VideoFrameDataPacketFactory.create_packet 1 1
              [9]).get_bytes).get_bytes ++ [7], 0⟩ =
      .ok ((PacketType.VIDEO_DATA, .VideoData 1 2 1 1 [9]), ⟨[7], 0⟩) :=
  video_decode_nested_reparse 1 2 1 1 [9] [7]
    (by decide) (by decide) (by decide) (by decide) (by decide)

/-- C10: across `read_packet` calls that do not enter resync, no unread
byte is lost or reordered: for every well-formed wire packet at the head of
the buffer, a successful `read_packet` returns precisely that packet and the
compaction done by `_flush_read_data` leaves the buffer holding exactly the
suffix of the input that follows the packet, with the cursor at 0. -/
theorem read_packet_consumes_exactly (p : WirePacket) (rest : List Nat)
    (hp : p.Valid) :
    SocketDataReader.read_packet 1 ⟨p.encode ++ rest, 0⟩ =
      .ok ((p.ptype, p.dao), ⟨rest, 0⟩) := by
  have := read_packet_wire p hp [] rest 0
  simpa using this

/-- Witness for C10 at a wire-format KeyboardEvent packet (key 97, PRESS)
followed by one pending byte. -/
theorem read_packet_consumes_exactly_witness :
    SocketDataReader.read_packet 1
        ⟨(WirePacket.keyboard 97 ButtonState.PRESS).encode ++ [5], 0⟩ =
      .ok ((PacketType.KEYBOARD_EVENT, .KeyboardData 97 ButtonState.PRESS),
        ⟨[5], 0⟩) :=
  read_packet_consumes_exactly (.keyboard 97 ButtonState.PRESS) [5] (by decide)
